import Mathlib

/-!
Shallow embedding of the ESP32-IDeviceInstance repository, centred on the
reference double MockDeviceInstance (src/test/MockDeviceInstance.h), which
implements the IDeviceInstance contract (src/src/IDeviceInstance.h).

Modelling conventions:
- The embedding is sequential: FreeRTOS mutex takes with portMAX_DELAY always
  succeed (return pdTRUE), matching a single-threaded execution of the mock.
- The event group is a Nat bitmask with INIT_COMPLETE_BIT = 1 (BIT0),
  DATA_READY_BIT = 2 (BIT1), ERROR_BIT = 4 (BIT2), as in the source.
- Scoped C++ enums with underlying type int admit values outside their
  enumerator list via static_cast, so EventType parameters that callers can
  forge are modelled as Int; the five defined enumerators are 0..4.
- float sample values are modelled as exact rationals; the mock only copies
  sample vectors (std::vector assignment), never computes on them, so the
  value type is opaque to all the operations modelled here.
- Operations that fire callbacks return, besides the result and the next
  state, the list of EventNotification values dispatched by the call; each
  dispatched notification is delivered once to each registered callback
  (the MockNotify task loops over the callbacks vector).
- The background acquisition task that requestData spawns when dataDelay > 0
  (the MockDataAcq lambda) is modelled as the separate step
  dataAcquisitionTask, to be run after requestData returns.
-/

/-- IDeviceInstance error codes (enum ErrorCode / DeviceError in the source). -/
inductive ErrorCode where
  | SUCCESS
  | NOT_INITIALIZED
  | TIMEOUT
  | MUTEX_ERROR
  | COMMUNICATION_ERROR
  | INVALID_PARAMETER
  | DATA_NOT_READY
  | MEMORY_ERROR
  | DEVICE_BUSY
  | NOT_SUPPORTED
  | UNKNOWN_ERROR
deriving DecidableEq, Repr

/-- IDeviceInstance data channels (enum DeviceDataType, sentinel NUM_TYPES = 4). -/
inductive DeviceDataType where
  | TEMPERATURE
  | HUMIDITY
  | PRESSURE
  | RELAY_STATE
deriving DecidableEq, Repr

-- Underlying-int values of the five EventType enumerators.
namespace EventType

def INITIALIZED : Int := 0

def DATA_READY : Int := 1

def ERROR_OCCURRED : Int := 2

def STATE_CHANGED : Int := 3

def CUSTOM_EVENT : Int := 4

end EventType

/-- IDeviceInstance event payload (struct EventNotification): event type as its
underlying int, associated error code, custom integer data. -/
structure EventNotification where
  type : Int
  error : ErrorCode
  customData : Int
deriving DecidableEq, Repr

/-- Result of MockDeviceInstance getData (struct DataResult): success flag plus
the copied sample vector. -/
structure DataResult where
  success : Bool
  values : List ℚ
deriving DecidableEq, Repr

/-- Event-group bit BIT0, set when initialization completes. -/
def INIT_COMPLETE_BIT : Nat := 1

/-- Event-group bit BIT1, set when acquired data is ready. -/
def DATA_READY_BIT : Nat := 2

/-- Event-group bit BIT2, set on error signalling. -/
def ERROR_BIT : Nat := 4

/-- FreeRTOS xEventGroupSetBits: or the mask into the group. -/
def xEventGroupSetBits (group mask : Nat) : Nat :=
  group ||| mask

/-- FreeRTOS xEventGroupClearBits: clear the mask bits out of the group.
Since group &&& mask keeps exactly the masked bits that are set in the group,
subtracting it clears those bits and leaves the rest unchanged. -/
def xEventGroupClearBits (group mask : Nat) : Nat :=
  group - (group &&& mask)

/-- FreeRTOS xEventGroupWaitBits in the sequential model: the wait condition is
evaluated against the current group value; the call returns the observed bits
and the group state after the call (bits are cleared only when the wait was
satisfied and xClearOnExit was requested; an unsatisfied wait times out and
returns the bits as they stand). -/
def xEventGroupWaitBits (group waitBits : Nat) (clearOnExit waitForAll : Bool) :
    Nat × Nat :=
  let satisfied : Bool :=
    if waitForAll then group &&& waitBits == waitBits else group &&& waitBits != 0
  if satisfied then
    (group, if clearOnExit then xEventGroupClearBits group waitBits else group)
  else
    (group, group)

/-- State of one MockDeviceInstance: the fields of the C++ class, with the
event group inlined as a bitmask, the callbacks vector abstracted to the count
of registered observers (the callbacks themselves are opaque), and the
per-EventType enable array eventsEnabled widened to a total map on Int so that
the out-of-bounds indices reachable in the source stay expressible. -/
structure MockDeviceInstance where
  initialized : Bool
  dataRequested : Bool
  dataProcessed : Bool
  eventBits : Nat
  testData : DeviceDataType → Option (List ℚ)
  nextError : ErrorCode
  shouldFailNext : Bool
  callbacks : Nat
  eventsEnabled : Int → Bool
  performedActions : List (Int × Int)
  initDelay : Nat
  dataDelay : Nat

/-- The MockDeviceInstance constructor: flags cleared, no error armed, no test
data, all five event enables true, empty action log, delays as given, and a
freshly created (all-clear) event group. -/
def mkMockDeviceInstance (initDelayTicks dataDelayTicks : Nat) : MockDeviceInstance where
  initialized := false
  dataRequested := false
  dataProcessed := false
  eventBits := 0
  testData := fun _ => none
  nextError := ErrorCode.SUCCESS
  shouldFailNext := false
  callbacks := 0
  eventsEnabled := fun _ => true
  performedActions := []
  initDelay := initDelayTicks
  dataDelay := dataDelayTicks

/-- MockDeviceInstance notifyEvent: when the enable flag indexed by the event
type is set, one EventNotification is dispatched (the MockNotify task then
delivers it once to every registered callback); otherwise nothing is emitted.
The state is not modified. -/
def notifyEvent (d : MockDeviceInstance) (type : Int) (error : ErrorCode)
    (customData : Int) : List EventNotification :=
  if d.eventsEnabled type then [⟨type, error, customData⟩] else []

/-- Number of deliveries of notifications of the given type to observers: each
dispatched notification is delivered once per registered callback. -/
def deliveredCount (d : MockDeviceInstance) (evs : List EventNotification)
    (type : Int) : Nat :=
  d.callbacks * (evs.filter (fun n => n.type == type)).length

/-- MockDeviceInstance initializeDevice (the initialize method; renamed only
because of Lean surface constraints): sets the initialized flag, sets
INIT_COMPLETE_BIT, and notifies INITIALIZED with SUCCESS — on every call. -/
def initializeDevice (d : MockDeviceInstance) :
    MockDeviceInstance × List EventNotification :=
  let d1 := { d with
    initialized := true
    eventBits := xEventGroupSetBits d.eventBits INIT_COMPLETE_BIT }
  (d1, notifyEvent d1 EventType.INITIALIZED ErrorCode.SUCCESS 0)

/-- MockDeviceInstance isInitialized: reads the flag. -/
def isInitialized (d : MockDeviceInstance) : Bool :=
  d.initialized

/-- Body of the MockDataAcq task that requestData spawns when dataDelay > 0:
after the delay it sets DATA_READY_BIT and notifies DATA_READY with SUCCESS. -/
def dataAcquisitionTask (d : MockDeviceInstance) :
    MockDeviceInstance × List EventNotification :=
  let d1 := { d with eventBits := xEventGroupSetBits d.eventBits DATA_READY_BIT }
  (d1, notifyEvent d1 EventType.DATA_READY ErrorCode.SUCCESS 0)

/-- MockDeviceInstance requestData: fails (returns false) when not initialized;
when the fail-next latch is armed, clears the latch, notifies ERROR_OCCURRED
with the armed error code, and fails; otherwise marks data requested and not
processed, clears DATA_READY_BIT, then either defers DATA_READY_BIT assertion
to the MockDataAcq task (dataDelay > 0) or asserts it and notifies DATA_READY
synchronously, and returns true. -/
def requestData (d : MockDeviceInstance) :
    Bool × MockDeviceInstance × List EventNotification :=
  if d.initialized = false then
    (false, d, [])
  else if d.shouldFailNext then
    let d1 := { d with shouldFailNext := false }
    (false, d1, notifyEvent d1 EventType.ERROR_OCCURRED d.nextError 0)
  else
    let d1 := { d with
      dataRequested := true
      dataProcessed := false
      eventBits := xEventGroupClearBits d.eventBits DATA_READY_BIT }
    if d.dataDelay > 0 then
      (true, d1, [])
    else
      let d2 := { d1 with eventBits := xEventGroupSetBits d1.eventBits DATA_READY_BIT }
      (true, d2, notifyEvent d2 EventType.DATA_READY ErrorCode.SUCCESS 0)

/-- MockDeviceInstance waitForData with timeout: waits without clearing
(xClearOnExit = pdFALSE, xWaitForAllBits = pdFALSE) on DATA_READY_BIT or
ERROR_BIT, then returns SUCCESS when DATA_READY_BIT is among the observed
bits, else the armed error code when ERROR_BIT is, else TIMEOUT. The device
is returned with the post-wait event group. -/
def waitForData (d : MockDeviceInstance) : ErrorCode × MockDeviceInstance :=
  let r := xEventGroupWaitBits d.eventBits (DATA_READY_BIT ||| ERROR_BIT) false false
  let d1 := { d with eventBits := r.2 }
  if r.1 &&& DATA_READY_BIT != 0 then
    (ErrorCode.SUCCESS, d1)
  else if r.1 &&& ERROR_BIT != 0 then
    (d.nextError, d1)
  else
    (ErrorCode.TIMEOUT, d1)

/-- MockDeviceInstance processData: sets the processed flag. -/
def processData (d : MockDeviceInstance) : MockDeviceInstance :=
  { d with dataProcessed := true }

/-- MockDeviceInstance getData: an all-failure result when not initialized or
when data has not been processed this cycle; otherwise a copy of the sample
vector stored for the type when one is configured, else failure. -/
def getData (d : MockDeviceInstance) (dataType : DeviceDataType) : DataResult :=
  if d.initialized = false then
    ⟨false, []⟩
  else if d.dataProcessed = false then
    ⟨false, []⟩
  else
    match d.testData dataType with
    | some vs => ⟨true, vs⟩
    | none => ⟨false, []⟩

/-- MockDeviceInstance performAction: NOT_INITIALIZED before initialization;
otherwise records the action pair, notifies STATE_CHANGED with SUCCESS
carrying actionId as custom data, and returns SUCCESS. -/
def performAction (d : MockDeviceInstance) (actionId actionParam : Int) :
    ErrorCode × MockDeviceInstance × List EventNotification :=
  if d.initialized = false then
    (ErrorCode.NOT_INITIALIZED, d, [])
  else
    let d1 := { d with performedActions := d.performedActions ++ [(actionId, actionParam)] }
    (ErrorCode.SUCCESS, d1, notifyEvent d1 EventType.STATE_CHANGED ErrorCode.SUCCESS actionId)

/-- MockDeviceInstance registerCallback: appends to the callbacks vector. -/
def registerCallback (d : MockDeviceInstance) : ErrorCode × MockDeviceInstance :=
  (ErrorCode.SUCCESS, { d with callbacks := d.callbacks + 1 })

/-- MockDeviceInstance unregisterCallbacks: clears the callbacks vector. -/
def unregisterCallbacks (d : MockDeviceInstance) : ErrorCode × MockDeviceInstance :=
  (ErrorCode.SUCCESS, { d with callbacks := 0 })

/-- MockDeviceInstance setEventNotification: rejects types whose underlying
int is at least 5 with INVALID_PARAMETER; any other type reaches the write
eventsEnabled[int(eventType)] = enable and returns SUCCESS (the source has
no lower-bound check). -/
def setEventNotification (d : MockDeviceInstance) (eventType : Int) (enable : Bool) :
    ErrorCode × MockDeviceInstance :=
  if eventType ≥ 5 then
    (ErrorCode.INVALID_PARAMETER, d)
  else
    (ErrorCode.SUCCESS,
     { d with eventsEnabled := fun i => if i = eventType then enable else d.eventsEnabled i })

/-- The eventsEnabled array index that setEventNotification accesses for a
given underlying-int event type: none when the guard rejects the call, else
the raw int, which indexes the 5-element array eventsEnabled. -/
def setEventAccessIndex (eventType : Int) : Option Int :=
  if eventType ≥ 5 then none else some eventType

/-- MockDeviceInstance setTestData: stores the sample vector for the type. -/
def setTestData (d : MockDeviceInstance) (dataType : DeviceDataType)
    (values : List ℚ) : MockDeviceInstance :=
  { d with testData := fun t => if t = dataType then some values else d.testData t }

/-- MockDeviceInstance injectError: arms the fail-next latch with the code. -/
def injectError (d : MockDeviceInstance) (error : ErrorCode) : MockDeviceInstance :=
  { d with nextError := error, shouldFailNext := true }

/-!
Theorems for the claims, in claim order. Statuses:
C1, C2, C3, C4, C6, C8, C10 confirmed; C5 corrected (a repeated initialize
re-emits the INITIALIZED notification, so it is not effect-free); C7 and
C9 expose the missing lower-bound check in setEventNotification, which lets
a negative underlying event-type value index the five-element enable array.
-/

lemma lor_one_idem (a : Nat) : (a ||| 1) ||| 1 = a ||| 1 := by
  rw [Nat.or_assoc]
  norm_num

/-- Claim C3: on a device whose initialization has not completed, requestData
fails (returns false), and performAction fails with NOT_INITIALIZED for every
actionId and actionParam. -/
theorem c3_not_initialized_fails (d : MockDeviceInstance) (actionId actionParam : Int)
    (h : d.initialized = false) :
    (requestData d).1 = false ∧
    (performAction d actionId actionParam).1 = ErrorCode.NOT_INITIALIZED := by
  constructor
  · simp [requestData, h]
  · simp [performAction, h]

theorem c3_witness :
    (requestData (mkMockDeviceInstance 0 0)).1 = false ∧
    (performAction (mkMockDeviceInstance 0 0) 1 100).1 = ErrorCode.NOT_INITIALIZED :=
  c3_not_initialized_fails (mkMockDeviceInstance 0 0) 1 100 (by decide)

/-- Claim C2: after a successful requestData and before processData in the
same cycle (whether or not the deferred acquisition task has run), getData
returns an unsuccessful result carrying no values for every data type, hence
never a sample sequence from a prior cycle. -/
theorem c2_not_ready_before_process (d : MockDeviceInstance) (T : DeviceDataType)
    (hinit : d.initialized = true) (hfail : d.shouldFailNext = false) :
    (requestData d).1 = true ∧
    getData (requestData d).2.1 T = ⟨false, []⟩ ∧
    getData (dataAcquisitionTask (requestData d).2.1).1 T = ⟨false, []⟩ := by
  refine ⟨?_, ?_, ?_⟩ <;>
    simp [requestData, hinit, hfail, getData, dataAcquisitionTask] <;>
    split <;>
    simp [getData]

theorem c2_witness :
    (requestData (setTestData (initializeDevice (mkMockDeviceInstance 0 0)).1
      DeviceDataType.HUMIDITY [65])).1 = true ∧
    getData (requestData (setTestData (initializeDevice (mkMockDeviceInstance 0 0)).1
      DeviceDataType.HUMIDITY [65])).2.1 DeviceDataType.HUMIDITY = ⟨false, []⟩ :=
  ⟨(c2_not_ready_before_process _ DeviceDataType.HUMIDITY (by decide) (by decide)).1,
   (c2_not_ready_before_process _ DeviceDataType.HUMIDITY (by decide) (by decide)).2.1⟩

/-- Claim C1: on an initialized device with no armed failure, after storing the
sample sequence S for type T, requestData succeeds, and in any state of that
cycle (directly after requestData, or after the deferred acquisition task ran)
in which waitForData reports success, processData followed by getData T yields
a successful result whose value sequence is exactly S (exact equality, hence
within any floating-point tolerance). -/
theorem c1_roundtrip (d : MockDeviceInstance) (T : DeviceDataType) (S : List ℚ)
    (hinit : d.initialized = true) (hfail : d.shouldFailNext = false) :
    (requestData (setTestData d T S)).1 = true ∧
    (∀ d2 : MockDeviceInstance,
      (d2 = (requestData (setTestData d T S)).2.1 ∨
       d2 = (dataAcquisitionTask (requestData (setTestData d T S)).2.1).1) →
      (waitForData d2).1 = ErrorCode.SUCCESS →
      getData (processData d2) T = ⟨true, S⟩) := by
  constructor
  · simp [requestData, setTestData, hinit, hfail]
    split <;> simp
  · intro d2 hd2 _hw
    rcases hd2 with h | h <;> subst h <;>
      simp [requestData, setTestData, hinit, hfail] <;>
      split <;>
      simp [getData, processData, dataAcquisitionTask]

theorem c1_witness :
    (requestData (setTestData (initializeDevice (mkMockDeviceInstance 0 0)).1
      DeviceDataType.TEMPERATURE [25, 26])).1 = true ∧
    getData (processData (requestData (setTestData
      (initializeDevice (mkMockDeviceInstance 0 0)).1
      DeviceDataType.TEMPERATURE [25, 26])).2.1) DeviceDataType.TEMPERATURE
      = ⟨true, [25, 26]⟩ := by
  have h := c1_roundtrip (initializeDevice (mkMockDeviceInstance 0 0)).1
    DeviceDataType.TEMPERATURE [25, 26] (by decide) (by decide)
  exact ⟨h.1, h.2 _ (Or.inl rfl) (by decide)⟩

/-- Claim C4: on an initialized device with the error-occurred event enabled,
injectError E arms the latch; the next requestData fails, dispatches exactly
the one ERROR_OCCURRED event carrying E (delivered once to each of the
registered observers), and clears the latch, so the immediately following
requestData call succeeds. -/
theorem c4_error_injection (d : MockDeviceInstance) (E : ErrorCode)
    (hinit : d.initialized = true)
    (hen : d.eventsEnabled EventType.ERROR_OCCURRED = true) :
    (requestData (injectError d E)).1 = false ∧
    (requestData (injectError d E)).2.2 = [⟨EventType.ERROR_OCCURRED, E, 0⟩] ∧
    deliveredCount (requestData (injectError d E)).2.1
      (requestData (injectError d E)).2.2 EventType.ERROR_OCCURRED = d.callbacks ∧
    ((requestData (injectError d E)).2.1).shouldFailNext = false ∧
    (requestData ((requestData (injectError d E)).2.1)).1 = true := by
  refine ⟨?_, ?_, ?_, ?_, ?_⟩ <;>
    simp [requestData, injectError, notifyEvent, deliveredCount, hinit, hen]
  split <;> simp

theorem c4_witness :
    (requestData (injectError
      (registerCallback (initializeDevice (mkMockDeviceInstance 0 0)).1).2
      ErrorCode.COMMUNICATION_ERROR)).1 = false ∧
    (requestData (injectError
      (registerCallback (initializeDevice (mkMockDeviceInstance 0 0)).1).2
      ErrorCode.COMMUNICATION_ERROR)).2.2
      = [⟨EventType.ERROR_OCCURRED, ErrorCode.COMMUNICATION_ERROR, 0⟩] ∧
    deliveredCount
      (requestData (injectError
        (registerCallback (initializeDevice (mkMockDeviceInstance 0 0)).1).2
        ErrorCode.COMMUNICATION_ERROR)).2.1
      (requestData (injectError
        (registerCallback (initializeDevice (mkMockDeviceInstance 0 0)).1).2
        ErrorCode.COMMUNICATION_ERROR)).2.2 EventType.ERROR_OCCURRED = 1 ∧
    (requestData ((requestData (injectError
      (registerCallback (initializeDevice (mkMockDeviceInstance 0 0)).1).2
      ErrorCode.COMMUNICATION_ERROR)).2.1)).1 = true := by
  have h := c4_error_injection
    (registerCallback (initializeDevice (mkMockDeviceInstance 0 0)).1).2
    ErrorCode.COMMUNICATION_ERROR (by decide) (by decide)
  exact ⟨h.1, h.2.1, h.2.2.1, h.2.2.2.2⟩

/-- Claim C5, counterexample: a device that has already completed a successful
initialize (with one registered observer and the INITIALIZED event enabled, as
freshly constructed) dispatches another INITIALIZED notification on the next
initialize call — an observable effect, so that call is not a no-op. -/
theorem c5_counterexample :
    ((registerCallback (initializeDevice (mkMockDeviceInstance 0 0)).1).2).initialized
      = true ∧
    ((registerCallback (initializeDevice (mkMockDeviceInstance 0 0)).1).2).callbacks
      = 1 ∧
    (initializeDevice
      ((registerCallback (initializeDevice (mkMockDeviceInstance 0 0)).1).2)).2
      = [⟨EventType.INITIALIZED, ErrorCode.SUCCESS, 0⟩] ∧
    ([(⟨EventType.INITIALIZED, ErrorCode.SUCCESS, 0⟩ : EventNotification)]
      ≠ ([] : List EventNotification)) := by
  decide

/-- Claim C5, amended: isInitialized is false on a freshly constructed device,
true after any initialize call, and repeated initialize calls are idempotent
on the state; but a repeated call is not free of observable effects — it
dispatches the INITIALIZED notification again whenever that event is enabled
(and the initialize of the reference double returns no value at all). -/
theorem c5_amended (i j : Nat) (d : MockDeviceInstance) :
    isInitialized (mkMockDeviceInstance i j) = false ∧
    isInitialized (initializeDevice d).1 = true ∧
    (initializeDevice ((initializeDevice d).1)).1 = (initializeDevice d).1 ∧
    (d.eventsEnabled EventType.INITIALIZED = true →
      (initializeDevice ((initializeDevice d).1)).2
        = [⟨EventType.INITIALIZED, ErrorCode.SUCCESS, 0⟩]) := by
  refine ⟨rfl, rfl, ?_, ?_⟩
  · simp [initializeDevice, xEventGroupSetBits, INIT_COMPLETE_BIT,
      MockDeviceInstance.mk.injEq, lor_one_idem]
  · intro hen
    simp [initializeDevice, notifyEvent, hen]

theorem c5_witness :
    isInitialized (mkMockDeviceInstance 0 0) = false ∧
    isInitialized (initializeDevice (mkMockDeviceInstance 0 0)).1 = true ∧
    (initializeDevice ((initializeDevice (mkMockDeviceInstance 0 0)).1)).2
      = [⟨EventType.INITIALIZED, ErrorCode.SUCCESS, 0⟩] := by
  have h := c5_amended 0 0 (mkMockDeviceInstance 0 0)
  exact ⟨h.1, h.2.1, h.2.2.2 (by decide)⟩

/-- Claim C6: for each of the five defined event types X, after disabling X
via setEventNotification the dispatch path emits no notification of type X
(zero deliveries), and after re-enabling X a single trigger emits exactly one
notification of type X, delivered once per registered observer. -/
theorem c6_event_gating (d : MockDeviceInstance) (X : Int) (e : ErrorCode) (c : Int)
    (h0 : 0 ≤ X) (h5 : X < 5) :
    notifyEvent ((setEventNotification d X false).2) X e c = [] ∧
    deliveredCount ((setEventNotification d X false).2)
      (notifyEvent ((setEventNotification d X false).2) X e c) X = 0 ∧
    notifyEvent ((setEventNotification ((setEventNotification d X false).2) X true).2)
      X e c = [⟨X, e, c⟩] ∧
    deliveredCount ((setEventNotification ((setEventNotification d X false).2) X true).2)
      (notifyEvent ((setEventNotification ((setEventNotification d X false).2) X true).2)
        X e c) X = d.callbacks * 1 := by
  have hlt : ¬(X ≥ 5) := by omega
  refine ⟨?_, ?_, ?_, ?_⟩ <;>
    simp [setEventNotification, notifyEvent, deliveredCount, hlt]

theorem c6_witness :
    notifyEvent ((setEventNotification
      (registerCallback (mkMockDeviceInstance 0 0)).2 2 false).2) 2
      ErrorCode.COMMUNICATION_ERROR 0 = [] ∧
    notifyEvent ((setEventNotification ((setEventNotification
      (registerCallback (mkMockDeviceInstance 0 0)).2 2 false).2) 2 true).2) 2
      ErrorCode.COMMUNICATION_ERROR 0
      = [⟨2, ErrorCode.COMMUNICATION_ERROR, 0⟩] ∧
    deliveredCount ((setEventNotification ((setEventNotification
      (registerCallback (mkMockDeviceInstance 0 0)).2 2 false).2) 2 true).2)
      (notifyEvent ((setEventNotification ((setEventNotification
        (registerCallback (mkMockDeviceInstance 0 0)).2 2 false).2) 2 true).2) 2
        ErrorCode.COMMUNICATION_ERROR 0) 2 = 1 := by
  have h := c6_event_gating (registerCallback (mkMockDeviceInstance 0 0)).2 2
    ErrorCode.COMMUNICATION_ERROR 0 (by decide) (by decide)
  exact ⟨h.1, h.2.2.1, h.2.2.2⟩

/-- Claim C7: the guard of setEventNotification only rejects underlying values
of at least 5; the negative value -1 is accepted with SUCCESS, reaches array
index -1 (outside the five-element array, so the claimed INVALID_PARAMETER
rejection of every negative value does not happen), while 5 is rejected and
the in-range value 1 is accepted. -/
theorem c7_eval :
    (setEventNotification (mkMockDeviceInstance 0 0) (-1) true).1
      = ErrorCode.SUCCESS ∧
    (setEventNotification (mkMockDeviceInstance 0 0) (-1) true).1
      ≠ ErrorCode.INVALID_PARAMETER ∧
    setEventAccessIndex (-1) = some (-1) ∧
    ¬(0 ≤ (-1 : Int)) ∧
    (setEventNotification (mkMockDeviceInstance 0 0) 5 true).1
      = ErrorCode.INVALID_PARAMETER ∧
    (setEventNotification (mkMockDeviceInstance 0 0) 1 false).1
      = ErrorCode.SUCCESS := by
  decide

/-- Claim C9: the event-type value -1 passes the setEventNotification guard
and indexes the five-element enable array at -1, a negative (out-of-bounds)
index; the write actually lands there in the model (the flag at index -1
flips from its initial value), refuting that negative values never reach the
array access. -/
theorem c9_eval :
    setEventAccessIndex (-1) = some (-1) ∧
    ((-1 : Int) < 0) ∧
    (setEventNotification (mkMockDeviceInstance 0 0) (-1) false).2.eventsEnabled (-1)
      = false ∧
    (mkMockDeviceInstance 0 0).eventsEnabled (-1) = true := by
  decide

lemma xEventGroupWaitBits_no_clear (g w : Nat) (all : Bool) :
    (xEventGroupWaitBits g w false all).2 = g := by
  simp only [xEventGroupWaitBits]
  split <;> simp

/-- Claim C8: waitForData returns exactly one of SUCCESS (DATA_READY_BIT set),
the armed error code (ERROR_BIT set, DATA_READY_BIT clear), or TIMEOUT
(neither bit set); and it does not consume signal bits — the device, including
its whole event group, is unchanged by the call, because the wait runs with
xClearOnExit = pdFALSE. -/
theorem c8_wait_trichotomy_and_frame (d : MockDeviceInstance) :
    (waitForData d).2 = d ∧
    (d.eventBits &&& DATA_READY_BIT ≠ 0 → (waitForData d).1 = ErrorCode.SUCCESS) ∧
    (d.eventBits &&& DATA_READY_BIT = 0 → d.eventBits &&& ERROR_BIT ≠ 0 →
      (waitForData d).1 = d.nextError) ∧
    (d.eventBits &&& DATA_READY_BIT = 0 → d.eventBits &&& ERROR_BIT = 0 →
      (waitForData d).1 = ErrorCode.TIMEOUT) := by
  refine ⟨?_, ?_, ?_, ?_⟩
  · simp only [waitForData]
    split
    · rw [xEventGroupWaitBits_no_clear]
    · split
      · rw [xEventGroupWaitBits_no_clear]
      · rw [xEventGroupWaitBits_no_clear]
  · intro h
    simp [waitForData, xEventGroupWaitBits, h]
  · intro h2 h4
    simp [waitForData, xEventGroupWaitBits, h2, h4]
  · intro h2 h4
    simp [waitForData, xEventGroupWaitBits, h2, h4]

theorem c8_witness :
    (waitForData (requestData (initializeDevice (mkMockDeviceInstance 0 0)).1).2.1).1
      = ErrorCode.SUCCESS ∧
    (waitForData (requestData (initializeDevice (mkMockDeviceInstance 0 0)).1).2.1).2
      = (requestData (initializeDevice (mkMockDeviceInstance 0 0)).1).2.1 := by
  have h := c8_wait_trichotomy_and_frame
    (requestData (initializeDevice (mkMockDeviceInstance 0 0)).1).2.1
  exact ⟨h.2.1 (by decide), h.1⟩

/-- Claim C10: whenever requestData fails, the acquisition state is untouched:
the data-requested and data-processed flags, the whole event group (so also
the data-ready bit), and the stored per-type sample table all keep their
prior values, and getData returns exactly what it returned before the failed
call. -/
theorem c10_failed_request_frame (d : MockDeviceInstance) (T : DeviceDataType)
    (h : (requestData d).1 = false) :
    (requestData d).2.1.dataRequested = d.dataRequested ∧
    (requestData d).2.1.dataProcessed = d.dataProcessed ∧
    (requestData d).2.1.eventBits = d.eventBits ∧
    (requestData d).2.1.testData T = d.testData T ∧
    getData (requestData d).2.1 T = getData d T := by
  by_cases hi : d.initialized = true
  · by_cases hf : d.shouldFailNext = true
    · refine ⟨?_, ?_, ?_, ?_, ?_⟩ <;>
        simp [requestData, hi, hf, getData]
    · exfalso
      have hf2 : d.shouldFailNext = false := by simpa using hf
      rcases Nat.eq_zero_or_pos d.dataDelay with hd | hd <;>
        simp [requestData, hi, hf2, hd] at h
  · have hi2 : d.initialized = false := by simpa using hi
    simp [requestData, hi2]

theorem c10_witness :
    (requestData (injectError (processData (requestData (setTestData
      (initializeDevice (mkMockDeviceInstance 0 0)).1
      DeviceDataType.TEMPERATURE [25])).2.1) ErrorCode.COMMUNICATION_ERROR)).1
      = false ∧
    getData (requestData (injectError (processData (requestData (setTestData
      (initializeDevice (mkMockDeviceInstance 0 0)).1
      DeviceDataType.TEMPERATURE [25])).2.1) ErrorCode.COMMUNICATION_ERROR)).2.1
      DeviceDataType.TEMPERATURE
      = getData (injectError (processData (requestData (setTestData
        (initializeDevice (mkMockDeviceInstance 0 0)).1
        DeviceDataType.TEMPERATURE [25])).2.1) ErrorCode.COMMUNICATION_ERROR)
        DeviceDataType.TEMPERATURE := by
  have h := c10_failed_request_frame (injectError (processData (requestData
    (setTestData (initializeDevice (mkMockDeviceInstance 0 0)).1
    DeviceDataType.TEMPERATURE [25])).2.1) ErrorCode.COMMUNICATION_ERROR)
    DeviceDataType.TEMPERATURE (by decide)
  exact ⟨by decide, h.2.2.2.2⟩
